import Mathlib

/-!
# DataScruber — verification of the Node.js wrapper around the wipe engine

Shallow embedding of the repository's JavaScript sources:
- `src/index.js` — the current interactive CLI wrapper; and
- `src/unnamed/part_000` — an older revision of the same wrapper
  (header "Secure Scrubber - Interactive CLI").

The Python wipe engine (`main.py`) is invoked by the wrapper but its source
is not part of the repository snapshot under verification; where a claim
depends on engine behaviour, the relevant engine component is modelled from
the specification and explicitly marked `Modelled from the spec:`.

Terminal rendering details (chalk colour codes, box drawing, timestamps,
spinner frames) are display-only and are elided from the embedding; the
structural content of every record (values, flags, argument lists, log
entries) is kept.
-/

namespace DataScruber

/-! ## Exit-code classification (src/index.js lines 178-189, part_000 lines 131-144) -/

/-- The three terminal outcomes the wrapper reports when the engine
subprocess closes. -/
inductive ExitOutcome where
  | success
  | cancelled
  | failed
deriving DecidableEq, Repr

/-- Embedding of the `close` handler's exit-code dispatch, identical in
`src/index.js` (lines 181-183) and `src/unnamed/part_000` (lines 132-138):
`code === 0` → success message, `code === 130` → safely-cancelled message,
anything else → failure message. -/
def classifyExit (code : Int) : ExitOutcome :=
  if code = 0 then .success
  else if code = 130 then .cancelled
  else .failed

/-! ## Wipe-mode menus and engine argument construction -/

/-- The `value`s offered by the wiping-method menu of `src/index.js`
(lines 206-214), excluding the non-mode `cancel` entry. -/
def wipeMenuModes : List String := ["secure", "paranoid", "legacy-fast"]

/-- The `value`s offered by the wiping-method menu of the older revision
`src/unnamed/part_000` (lines 176-194), excluding the non-mode `cancel`
entry. -/
def wipeMenuModesOld : List String := ["quick", "secure", "paranoid"]

/-- The four modes named by the specification's invocation surface. -/
def specModes : List String := ["quick", "secure", "paranoid", "legacy-fast"]

/-- Embedding of the paranoid-passes argument fragment of `src/index.js`
(lines 229-237): `passesArg` is `['--passes', String(passes)]` when the
selected mode is `paranoid` and the empty list otherwise. -/
def passesArgFor (wipeMode : String) (passes : Int) : List String :=
  if wipeMode = "paranoid" then ["--passes", toString passes] else []

/-- The `default: 3` of the passes prompt in `src/index.js` line 233. -/
def defaultPasses : Int := 3

/-- Embedding of the passes prompt's `validate` callback in `src/index.js`
line 234: `Number.isInteger(v) && v >= 1 && v <= 10`.  A non-integer (or
`NaN`) numeric input is modelled as `none`. -/
def validatePasses (v : Option Int) : Bool :=
  match v with
  | some n => decide (1 ≤ n) && decide (n ≤ 10)
  | none => false

/-- Embedding of the engine argument list built in `src/index.js` line 260:
`['--path', targetPath, '--mode', wipeMode, '--filesystem', filesystem,
...passesArg]`. -/
def scriptArgs (targetPath wipeMode filesystem : String) (passes : Int) :
    List String :=
  ["--path", targetPath, "--mode", wipeMode, "--filesystem", filesystem]
    ++ passesArgFor wipeMode passes

/-- Embedding of the spawn argument list of the older revision
`src/unnamed/part_000` line 84 (after the script path):
`['--path', targetPath, '--mode', mode]`. -/
def oldSpawnArgs (targetPath mode : String) : List String :=
  ["--path", targetPath, "--mode", mode]

/-- Filesystem choices offered by `src/index.js` lines 219-221, excluding
the non-filesystem `cancel` entry. -/
def fsChoices (isWindows : Bool) : List String :=
  if isWindows then ["NTFS", "exFAT"] else ["ext4", "exfat", "vfat"]

/-! ## Drive enumeration (src/index.js lines 25-107) -/

/-- One item of the engine's `drives` payload as read by `src/index.js`
lines 45-62 (fields `device`, `path`, `label`, `fstype`, `total`,
`is_system`, `is_removable`).  JavaScript's truthiness coercions `!!d.x`
and `d.x || dflt` are modelled by `Bool` and `Option` fields. -/
structure DriveItem where
  device : String
  path : String
  label : Option String
  fstype : Option String
  total : Option Nat
  is_system : Bool
  is_removable : Bool
deriving DecidableEq, Repr

/-- An inquirer list choice as built by `getDrives`: display `name`,
selection `value`, and the optional `disabled` reason. -/
structure Choice where
  name : String
  value : String
  disabled : Option String
deriving DecidableEq, Repr

/-- `(d.total / 1073741824).toFixed(1) + 'GB'` of `src/index.js` line 48,
with JavaScript's float division-and-round modelled by truncation to
tenths (display-only text; no claim depends on the rounding direction). -/
def totalText (total : Option Nat) : String :=
  match total with
  | some t =>
      let tenths := t * 10 / 1073741824
      s!"{tenths / 10}.{tenths % 10}GB"
  | none => "N/A"

/-- Embedding of the per-item choice construction of `src/index.js`
lines 45-62.  Chalk colour codes are elided from `name`; the structural
parts (device/path, label, filesystem, size text, badges, `value`, and
the `disabled` marking of system volumes) are kept. -/
def driveChoice (isWindows : Bool) (d : DriveItem) : Choice :=
  let isSys := d.is_system
  let removable := d.is_removable
  let totalGB := totalText d.total
  let fsName := d.fstype.getD "Unknown"
  let labelText := match d.label with
    | some l => " " ++ l
    | none => ""
  let badge := (if removable then "[REMOVABLE]" else "[INTERNAL]")
    ++ (if isSys then " [SYSTEM]" else "")
  let value := if isWindows then d.path else d.device
  { name := (if isWindows then d.path else d.device) ++ labelText ++ " ("
      ++ fsName ++ ", " ++ totalGB ++ ") " ++ badge
    value := value
    disabled := if isSys then some "System volume (blocked)" else none }

/-- One stdout line of the listing subprocess as seen by `src/index.js`
lines 39-41: either it `JSON.parse`s to an object whose `type` is
`'drives'` (carrying `items`, with `payload.items || []` modelled by the
list itself), or it is any other line. -/
inductive PrimLine where
  | drives (items : List DriveItem)
  | other
deriving Repr

/-- `lines.reverse().find(l => JSON.parse(l).type === 'drives')` of
`src/index.js` lines 39-43: the last drives-typed line wins. -/
def findLastDrives (lines : List PrimLine) : Option (List DriveItem) :=
  lines.reverse.findSome? fun l =>
    match l with
    | .drives items => some items
    | .other => none

/-- The primary branch of `getDrives` (`src/index.js` lines 36-64): map
the drives payload to choices; `none` models the `throw` into the
fallback branch (exec error, no drives JSON line, or empty choice
list). -/
def primaryChoices (isWindows : Bool) (stdoutLines : List PrimLine) :
    Option (List Choice) :=
  match findLastDrives stdoutLines with
  | none => none
  | some items =>
      let choices := items.map (driveChoice isWindows)
      if choices.length > 0 then some choices else none

/-- `line.trim().split(/\s+/)` of `src/index.js` line 89: split the
trimmed line on runs of whitespace. -/
def splitWS (line : String) : List String :=
  (line.trim.split (fun c => c.isWhitespace)).filter (· ≠ "")

/-- `line.trim().split(/\s{2,}/)` of `src/index.js` line 74: split on runs
of two or more whitespace characters, keeping single whitespace characters
inside tokens.  Implemented as a fold over the characters, buffering a
pending whitespace run. -/
def splitWS2Aux : List String → List Char → List Char → List Char →
    List String
  | acc, cur, _pend, [] => acc ++ [String.mk cur]
  | acc, cur, pend, c :: cs =>
      if c.isWhitespace then
        splitWS2Aux acc cur (pend ++ [c]) cs
      else if pend.length ≥ 2 then
        splitWS2Aux (acc ++ [String.mk cur]) [c] [] cs
      else
        splitWS2Aux acc (cur ++ pend ++ [c]) [] cs

/-- See `splitWS2Aux`. -/
def splitWS2 (line : String) : List String :=
  splitWS2Aux [] [] [] line.trim.toList

/-- JavaScript `String.prototype.trim()`: drop whitespace from both ends
(defined over the character list so that concrete instances reduce in the
kernel). -/
def jsTrim (s : String) : String :=
  String.mk
    (((s.toList.dropWhile Char.isWhitespace).reverse.dropWhile
      Char.isWhitespace).reverse)

/-- ASCII lowering of one character, as JavaScript's `toLowerCase()` acts
on the characters these paths compare (drive paths and letters). -/
def charLowerJS (c : Char) : Char :=
  if 'A' ≤ c ∧ c ≤ 'Z' then Char.ofNat (c.toNat + 32) else c

/-- JavaScript `String.prototype.toLowerCase()` over the relevant ASCII
range. -/
def jsToLower (s : String) : String :=
  String.mk (s.toList.map charLowerJS)

/-- JavaScript `parseInt(s, 10)`: skip leading whitespace, take an optional
sign and the longest leading digit run; `NaN` (no digits) is `none`. -/
def parseIntJS (s : String) : Option Int :=
  let t := (jsTrim s).toList
  let signAndRest : Int × List Char :=
    match t with
    | '-' :: cs => (-1, cs)
    | '+' :: cs => (1, cs)
    | cs => (1, cs)
  let digits := signAndRest.2.takeWhile (·.isDigit)
  if digits.isEmpty then none
  else some (signAndRest.1 * (((String.mk digits).toNat?).getD 0))

/-- `x.toFixed(1)` applied to `bytes / 1073741824`, as in the size displays
of `getDrives`; rounding modelled by truncation to tenths (display-only). -/
def gbTenths (bytes : Nat) : String :=
  let t := bytes * 10 / 1073741824
  s!"{t / 10}.{t % 10}"

/-- One line of the Windows fallback (`wmic logicaldisk`) parse of
`src/index.js` lines 73-86: `none` models the lines the loop skips. -/
def fallbackWindowsLine (line : String) : Option Choice :=
  let parts := splitWS2 line
  if parts.length < 2 then none
  else
    let caption := parts.getD 0 ""
    let volumeName := if parts.length > 2 then parts.getD 2 "" else "[No Name]"
    match parseIntJS (parts.getD 1 "") with
    | some size =>
        if caption ≠ "" then
          some { name := caption ++ " " ++ volumeName ++ " ("
                   ++ gbTenths size.toNat ++ "GB)"
                 value := caption ++ "\\"
                 disabled := none }
        else none
    | none => none

/-- One line of the POSIX fallback (`lsblk`) parse of `src/index.js`
lines 88-100: `none` models the lines the loop skips.  An absent
`parts[i]` (JavaScript `undefined`) is modelled as `""`, which is falsy in
the same guards. -/
def fallbackPosixLine (line : String) : Option Choice :=
  let parts := splitWS line
  let devName := parts.getD 0 ""
  let mountPoint :=
    let p := parts.getD 3 ""
    if p = "" then "[Not Mounted]" else p
  match parseIntJS (parts.getD 2 "") with
  | some size =>
      if devName ≠ "" then
        some { name := devName ++ " @ " ++ mountPoint ++ " ("
                 ++ gbTenths size.toNat ++ "GB)"
               value := devName
               disabled := none }
      else none
  | none => none

/-- The fallback branch of `getDrives` (`src/index.js` lines 66-103):
`exec` failure (`none`) resolves `[]`; otherwise the trimmed output is
split into non-empty lines and parsed per platform (the Windows parse
skips the header line). -/
def fallbackDrives (isWindows : Bool) (execResult : Option String) :
    List Choice :=
  match execResult with
  | none => []
  | some out =>
      let lines := (out.trim.splitOn "\n").filter (· ≠ "")
      if isWindows then (lines.drop 1).filterMap fallbackWindowsLine
      else lines.filterMap fallbackPosixLine

/-- Embedding of `getDrives` of `src/index.js` lines 25-107.  `primary`
is the listing subprocess's outcome (`none` = exec error), each of its
lines pre-classified by whether it JSON-parses to a drives payload;
`fallback` is the platform tool's outcome (`none` = exec error).  Every
path `resolve`s — the promise is never rejected. -/
def getDrives (isWindows : Bool) (primary : Option (List PrimLine))
    (fallback : Option String) : List Choice :=
  match primary with
  | some lines =>
      match primaryChoices isWindows lines with
      | some cs => cs
      | none => fallbackDrives isWindows fallback
  | none => fallbackDrives isWindows fallback

/-- One line of the older revision's POSIX (`df -h`) parse,
`src/unnamed/part_000` lines 57-69. -/
def oldPosixLine (line : String) : Option Choice :=
  let parts := splitWS line
  let mountPoint := (parts.getLast?).getD ""
  if mountPoint ≠ "" && mountPoint.startsWith "/" then
    some { name := mountPoint ++ " (" ++ parts.getD 3 "" ++ " free / "
             ++ parts.getD 1 "" ++ " total)"
           value := mountPoint
           disabled := none }
  else none

/-- One line of the older revision's Windows (`wmic`) parse,
`src/unnamed/part_000` lines 39-55.  A `NaN` free-space value renders as
the text `NaN` in the display string, as in JavaScript. -/
def oldWindowsLine (line : String) : Option Choice :=
  let parts := splitWS line
  if parts.length < 2 then none
  else
    let caption := parts.getD 0 ""
    let freeText :=
      match parseIntJS (parts.getD 1 "") with
      | some f => gbTenths f.toNat
      | none => "NaN"
    let volumeName :=
      let v := String.intercalate " " (parts.drop 3)
      if v = "" then "[No Name]" else v
    match parseIntJS (parts.getD 2 "") with
    | some size =>
        if caption ≠ "" then
          some { name := caption ++ " " ++ volumeName ++ " (" ++ freeText
                   ++ "GB free / " ++ gbTenths size.toNat ++ "GB total)"
                 value := caption ++ "\\"
                 disabled := none }
        else none
    | none => none

/-- Embedding of `getDrives` of the older revision
`src/unnamed/part_000` lines 24-74: a single platform command whose
failure resolves `[]`. -/
def oldGetDrives (isWindows : Bool) (execResult : Option String) :
    List Choice :=
  match execResult with
  | none => []
  | some out =>
      let lines := (out.trim.splitOn "\n").drop 1
      if isWindows then lines.filterMap oldWindowsLine
      else lines.filterMap oldPosixLine

/-! ## Engine output processing (src/index.js lines 160-176) -/

/-- A log entry pushed by `addLog(message, type)` of `src/index.js`
lines 144-148 (wall-clock timestamp and colour prefix elided; the message
and the entry kind are kept). -/
structure LogEntry where
  message : String
  kind : String
deriving DecidableEq, Repr

/-- The mutable display state read and written by `processOutput`:
`currentPhase` (line 125) and `logMessages` (line 120). -/
structure OutputState where
  currentPhase : String
  logMessages : List LogEntry
deriving DecidableEq, Repr

/-- The fields of a parsed JSON record that `processOutput` reads:
`type`, `phase`, `message`.  A field absent from the actual object
(JavaScript `undefined`) is modelled by whatever string the parse
supplies; no claim depends on it. -/
structure JsonRecord where
  ty : String
  phase : String
  message : String
deriving DecidableEq, Repr

/-- The body of the per-line `forEach` of `processOutput`
(`src/index.js` lines 162-171): `parse` models `JSON.parse` on one line
(`none` = the `catch` branch).  A `progress` record replaces
`currentPhase`; any other parsed record is appended to the log via
`addLog(jsonData.message, jsonData.type)`; a non-JSON line is appended
via `addLog(line, 'raw')`. -/
def processLine (parse : String → Option JsonRecord) (st : OutputState)
    (line : String) : OutputState :=
  match parse line with
  | some j =>
      if j.ty = "progress" then { st with currentPhase := j.phase }
      else { st with logMessages := st.logMessages ++ [⟨j.message, j.ty⟩] }
  | none => { st with logMessages := st.logMessages ++ [⟨line, "raw"⟩] }

/-- Embedding of `processOutput` (`src/index.js` lines 160-173):
`data.toString().trim().split('\n').forEach(...)`, each line handled
independently by `processLine`.  The same handler is attached to both
the subprocess's stdout and stderr (lines 175-176). -/
def processOutput (parse : String → Option JsonRecord) (st : OutputState)
    (data : String) : OutputState :=
  (data.trim.splitOn "\n").foldl (processLine parse) st

/-! ## Cancellation (src/unnamed/part_000 lines 86-97) -/

/-- Embedding of the stdin key handler of the older revision
(`src/unnamed/part_000` lines 89-97): on the Ctrl+C character `'\u0003'`,
and only when an engine process handle exists, `SIGTERM` is sent to the
engine; no other signal is ever sent from this handler. -/
def ctrlCSignal (key : String) (hasProcess : Bool) : Option String :=
  if key = "\u0003" && hasProcess then some "SIGTERM" else none

/-- Modelled from the spec: the engine's overwrite loop is not under
`src/` (`main.py` is absent from the snapshot).  Per §4.4/§4.5, I/O
proceeds in fixed-size chunks and a cancellation flag — set
asynchronously when the engine receives the wrapper's signal — is
observed only at chunk boundaries, never mid-write. -/
structure ChunkState where
  bytesWritten : Nat
  cancelRequested : Bool
  finished : Bool
deriving DecidableEq, Repr

/-- Modelled from the spec: one iteration of the engine's chunk loop
(§4.4/§4.5).  A finished session is inert; an observed cancellation
request terminates the session with no further write; otherwise exactly
one full chunk (or the final partial extent up to `total`) is written
atomically. -/
def chunkStep (chunkSize total : Nat) (s : ChunkState) : ChunkState :=
  if s.finished then s
  else if s.cancelRequested then { s with finished := true }
  else if total ≤ s.bytesWritten + chunkSize then
    { s with bytesWritten := total, finished := true }
  else { s with bytesWritten := s.bytesWritten + chunkSize }

/-! ## The wipe sequence gate (src/index.js lines 192-266) -/

/-- The possible outcomes of one run of `startWipeSequence` in
`src/index.js`.  Every constructor except `spawned` returns control to
the main menu (via `main()` or `setTimeout(main, ...)`) with no engine
process started. -/
inductive SeqOutcome where
  | noDrives
  | menuReturn
  | rootRequired
  | confirmMismatch
  | spawned (args : List String)
deriving DecidableEq, Repr

/-- The operator inputs and ambient facts consumed by one run of
`startWipeSequence`: the enumerated drive choices, each prompt's answer
(`"cancel"` being the menu's cancel value), the platform, and the process
uid.  `passes` is the validated answer of the paranoid-only passes
prompt. -/
structure SeqInput where
  drives : List Choice
  targetPath : String
  wipeMode : String
  targetFs : String
  passes : Int
  confirmation : String
  isWindows : Bool
  uid : Nat
deriving Repr

/-- Embedding of the control flow of `startWipeSequence`
(`src/index.js` lines 192-266), parameterized by Node's
`path.normalize` (external library code).  In order: empty drive list →
message and menu; `cancel` at the target, mode, or filesystem prompt →
menu; then the typed confirmation is compared against the target after
`path.normalize(...).trim().toLowerCase()` on both sides; on a match, a
non-Windows non-root process is refused (`process.getuid() !== 0`,
line 255) and otherwise the engine is spawned with `scriptArgs`;
on a mismatch, the operation is cancelled. -/
def startWipeSequence (normalize : String → String) (inp : SeqInput) :
    SeqOutcome :=
  if inp.drives.length = 0 then .noDrives
  else if inp.targetPath = "cancel" then .menuReturn
  else if inp.wipeMode = "cancel" then .menuReturn
  else if inp.targetFs = "cancel" then .menuReturn
  else
    let normalizedConfirm := jsToLower (jsTrim (normalize inp.confirmation))
    let normalizedTarget := jsToLower (jsTrim (normalize inp.targetPath))
    if normalizedConfirm = normalizedTarget then
      if inp.isWindows = false ∧ inp.uid ≠ 0 then .rootRequired
      else .spawned (scriptArgs inp.targetPath inp.wipeMode inp.targetFs
        inp.passes)
    else .confirmMismatch

/-- `confirmation.replace(/\\$/, '')` of `src/unnamed/part_000`
lines 218-219: a non-global regex replace removes at most one trailing
backslash. -/
def dropTrailingBackslash (s : String) : String :=
  if s.endsWith "\x5c" then s.dropRight 1 else s

/-- The confirmation comparison of the older revision
(`src/unnamed/part_000` lines 218-221): both sides pass through
`path.normalize`, lose a trailing backslash, and are compared
case-insensitively; `startWipeProcess` is called exactly when this holds
(the older revision has no root check). -/
def oldConfirmMatches (normalize : String → String)
    (confirmation resolvedPath : String) : Bool :=
  jsToLower (dropTrailingBackslash (normalize confirmation))
    = jsToLower (dropTrailingBackslash (normalize resolvedPath))

/-! ## The engine's safety guard, modelled from the spec

`main.py` — the Python wipe engine that `src/index.js` spawns — is not
part of the repository snapshot under `src/`; only its callers are.  The
definitions below are therefore modelled from the specification (§3, §4.2,
§6, §8) rather than translated from source. -/

/-- The DriveRecord of spec §3: one candidate target as seen by the
engine's Safety Guard. -/
structure DriveRecord where
  devicePathOrMount : String
  label : String
  filesystemType : String
  totalBytes : Nat
  isSystemVolume : Bool
  isRemovable : Bool
deriving DecidableEq, Repr

/-- The WipeRequest of spec §3/§6 (mode kept as the invocation-surface
string). -/
structure WipeRequest where
  targetPath : String
  mode : String
  targetFilesystem : String
  passes : Int
  dryRun : Bool
deriving DecidableEq, Repr

/-- One record of the engine's line-oriented output protocol (spec §4.6). -/
inductive EngineEvent where
  | progress (phase : String)
  | status (message : String)
  | error (message : String)
  | drivesEv (items : List DriveRecord)
deriving DecidableEq, Repr

/-- The observable result of one engine run: the emitted events, the
process exit code, and the number of device bytes written. -/
structure EngineResult where
  events : List EngineEvent
  exitCode : Int
  bytesWritten : Nat
deriving DecidableEq, Repr

/-- Modelled from the spec: the Safety Guard's target resolution (§4.2)
— the request's target resolves to exactly one DriveRecord of the latest
scan. -/
def resolveTarget (records : List DriveRecord) (targetPath : String) :
    Option DriveRecord :=
  records.find? (fun r => r.devicePathOrMount = targetPath)

/-- Modelled from the spec: the engine's run entry with the Safety Guard
in front (§4.2, §8, exit codes §6).  Every validation failure — missing
target, system volume, passes outside [1,10], unrecognized mode — emits a
single `error` event and ends with a non-zero exit code and zero bytes
written, before any WipeSession exists; the system-volume refusal uses
the §8 scenario's message.  A request that passes validation proceeds:
a dry run writes nothing, a real run's written bytes are abstracted as
the target's capacity (the pass schedule itself is outside this model's
claims). -/
def runEngine (req : WipeRequest) (records : List DriveRecord) :
    EngineResult :=
  match resolveTarget records req.targetPath with
  | none => ⟨[.error "refused: target not found"], 2, 0⟩
  | some r =>
      if r.isSystemVolume then ⟨[.error "refused: system volume"], 2, 0⟩
      else if !(1 ≤ req.passes && req.passes ≤ 10) then
        ⟨[.error "refused: passes out of range"], 2, 0⟩
      else if !(specModes.contains req.mode) then
        ⟨[.error "refused: unrecognized mode"], 2, 0⟩
      else if req.dryRun then ⟨[.status "dry run complete"], 0, 0⟩
      else ⟨[.status "wipe complete"], 0, r.totalBytes⟩

/-- Modelled from the spec: the engine invoked with `list-drives` (§6)
performs only inventory enumeration, emits one `drives` event with the
classified records, and exits 0 with no destructive write. -/
def runEngineListing (records : List DriveRecord) : EngineResult :=
  ⟨[.drivesEv records], 0, 0⟩

/-! ## Claims -/

/-- C2: the close handler classifies every engine exit code as exactly one
of three terminal outcomes — 0 is success, 130 is safe cancellation by the
user, and every other code is failure — so cancellation is a terminal
outcome distinct from both success and failure. -/
theorem c2_exit_code_classification :
    classifyExit 0 = .success ∧ classifyExit 130 = .cancelled ∧
    (∀ code : Int, code ≠ 0 → code ≠ 130 → classifyExit code = .failed) ∧
    (∀ code : Int, (classifyExit code = .success ↔ code = 0) ∧
      (classifyExit code = .cancelled ↔ code = 130)) := by
  refine ⟨rfl, rfl, ?_, ?_⟩
  · intro code h0 h130
    simp [classifyExit, h0, h130]
  · intro code
    by_cases h0 : code = 0 <;> by_cases h130 : code = 130 <;>
      simp [classifyExit, h0, h130]

/-- C2 witness: exit code 7 is neither 0 nor 130 and is classified as
failure. -/
theorem c2_exit_code_classification_witness :
    classifyExit 7 = .failed :=
  c2_exit_code_classification.2.2.1 7 (by decide) (by decide)

/-- C6 counterexample: the claim asserts the invocation surface offers
every mode in {quick, secure, paranoid, legacy-fast}, but `quick` is not
among the modes offered by the current menu (`src/index.js`
lines 206-214), and `legacy-fast` is not among the modes offered by the
older revision's menu (`src/unnamed/part_000` lines 176-194). -/
theorem c6_counterexample :
    "quick" ∈ specModes ∧ "quick" ∉ wipeMenuModes ∧
    "legacy-fast" ∈ specModes ∧ "legacy-fast" ∉ wipeMenuModesOld := by
  refine ⟨by decide, by decide, by decide, by decide⟩

/-- C6 amended: no single revision offers all four modes — the current
menu offers exactly {secure, paranoid, legacy-fast} (quick is absent) and
the older menu exactly {quick, secure, paranoid} (legacy-fast is absent);
together the two menus cover all four spec modes, and each selected mode
is forwarded to the engine as the value following `--mode`. -/
theorem c6_modes_offered :
    "quick" ∉ wipeMenuModes ∧ "legacy-fast" ∉ wipeMenuModesOld ∧
    (∀ m ∈ wipeMenuModes, m ∈ specModes) ∧
    (∀ m ∈ wipeMenuModesOld, m ∈ specModes) ∧
    (∀ m ∈ specModes, m ∈ wipeMenuModes ∨ m ∈ wipeMenuModesOld) ∧
    (∀ tp m fs p, (scriptArgs tp m fs p).get? 2 = some "--mode" ∧
      (scriptArgs tp m fs p).get? 3 = some m) ∧
    (∀ tp m, (oldSpawnArgs tp m).get? 2 = some "--mode" ∧
      (oldSpawnArgs tp m).get? 3 = some m) := by
  refine ⟨by decide, by decide, by decide, by decide, by decide, ?_, ?_⟩
  · intro tp m fs p
    exact ⟨rfl, rfl⟩
  · intro tp m
    exact ⟨rfl, rfl⟩

/-- C6 amended witness: `secure` is offered by the current menu and is
forwarded as the `--mode` value. -/
theorem c6_modes_offered_witness :
    "secure" ∈ wipeMenuModes ∧
    (scriptArgs "/dev/sdb1" "secure" "ext4" 3).get? 3 = some "secure" :=
  ⟨by decide,
    (c6_modes_offered.2.2.2.2.2.1 "/dev/sdb1" "secure" "ext4" 3).2⟩

/-- C7: the passes parameter is prompted only for paranoid mode with
default 3, its validator accepts exactly the integers in [1,10], the
`--passes` fragment is attached only for paranoid mode, and every other
mode's argument list carries no passes fragment. -/
theorem c7_passes_argument :
    defaultPasses = 3 ∧
    (∀ v : Int, validatePasses (some v) = true ↔ 1 ≤ v ∧ v ≤ 10) ∧
    validatePasses none = false ∧
    (∀ mode p, mode ≠ "paranoid" → passesArgFor mode p = []) ∧
    (∀ p : Int, passesArgFor "paranoid" p = ["--passes", toString p]) ∧
    (∀ tp mode fs p, scriptArgs tp mode fs p =
      ["--path", tp, "--mode", mode, "--filesystem", fs]
        ++ passesArgFor mode p) := by
  refine ⟨rfl, ?_, rfl, ?_, ?_, ?_⟩
  · intro v
    simp [validatePasses]
  · intro mode p h
    simp [passesArgFor, h]
  · intro p
    simp [passesArgFor]
  · intro tp mode fs p
    rfl

/-- C7 witness: secure mode carries no passes fragment, the validator
accepts 3 and the paranoid fragment for 3 passes is
`['--passes', '3']`. -/
theorem c7_passes_argument_witness :
    passesArgFor "secure" 5 = [] ∧ (1 ≤ (3 : Int) ∧ (3 : Int) ≤ 10) ∧
    passesArgFor "paranoid" 3 = ["--passes", "3"] :=
  ⟨c7_passes_argument.2.2.2.1 "secure" 5 (by decide),
    (c7_passes_argument.2.1 3).mp (by decide),
    c7_passes_argument.2.2.2.2.1 3⟩

/-- C8: every argument list handed to the engine carries `--filesystem`
followed by the chosen filesystem (positions 4 and 5), a spawned engine
always received its arguments from `scriptArgs` with a filesystem the
operator chose (not the `cancel` sentinel), and cancelling the
filesystem prompt makes spawning impossible. -/
theorem c8_filesystem_argument :
    (∀ tp mode fs p, (scriptArgs tp mode fs p).get? 4 = some "--filesystem"
      ∧ (scriptArgs tp mode fs p).get? 5 = some fs) ∧
    (∀ n inp args, startWipeSequence n inp = .spawned args →
      inp.targetFs ≠ "cancel" ∧
      args = scriptArgs inp.targetPath inp.wipeMode inp.targetFs
        inp.passes) ∧
    (∀ n inp, inp.targetFs = "cancel" →
      ∀ args, startWipeSequence n inp ≠ .spawned args) := by
  refine ⟨?_, ?_, ?_⟩
  · intro tp mode fs p
    exact ⟨rfl, rfl⟩
  · intro n inp args h
    by_cases h1 : inp.drives.length = 0
    · simp [startWipeSequence, h1] at h
    by_cases h2 : inp.targetPath = "cancel"
    · simp [startWipeSequence, h1, h2] at h
    by_cases h3 : inp.wipeMode = "cancel"
    · simp [startWipeSequence, h1, h2, h3] at h
    by_cases h4 : inp.targetFs = "cancel"
    · simp [startWipeSequence, h1, h2, h3, h4] at h
    by_cases h5 : jsToLower (jsTrim (n inp.confirmation))
        = jsToLower (jsTrim (n inp.targetPath))
    · by_cases h6 : inp.isWindows = false ∧ inp.uid ≠ 0
      · simp [startWipeSequence, h1, h2, h3, h4, h5, h6] at h
      · refine ⟨h4, ?_⟩
        simp [startWipeSequence, h1, h2, h3, h4, h5, h6] at h
        exact h.symm
    · simp [startWipeSequence, h1, h2, h3, h4, h5] at h
  · intro n inp h4 args hcontra
    have h := (by
      by_cases h1 : inp.drives.length = 0
      · simp [startWipeSequence, h1] at hcontra
      by_cases h2 : inp.targetPath = "cancel"
      · simp [startWipeSequence, h1, h2] at hcontra
      by_cases h3 : inp.wipeMode = "cancel"
      · simp [startWipeSequence, h1, h2, h3] at hcontra
      · simp [startWipeSequence, h1, h2, h3, h4] at hcontra :
        False)
    exact h

/-- C8 witness: a concrete run that spawns carries
`--filesystem ext4`, and one that cancels the filesystem prompt does not
spawn. -/
theorem c8_filesystem_argument_witness :
    (scriptArgs "/dev/sdb1" "secure" "ext4" 3).get? 4
      = some "--filesystem" ∧
    ∀ args,
      startWipeSequence id
        ⟨[⟨"d", "/dev/sdb1", none⟩], "/dev/sdb1", "secure", "cancel", 3,
          "/dev/sdb1", false, 0⟩ ≠ .spawned args :=
  ⟨(c8_filesystem_argument.1 "/dev/sdb1" "secure" "ext4" 3).1,
    c8_filesystem_argument.2.2 id
      ⟨[⟨"d", "/dev/sdb1", none⟩], "/dev/sdb1", "secure", "cancel", 3,
        "/dev/sdb1", false, 0⟩ rfl⟩

/-- C9: the engine is spawned only when the typed confirmation, after
`path.normalize(...).trim().toLowerCase()` on both sides, equals the
selected target path; on any non-matching confirmation no engine process
is started, and, when every earlier prompt was answered, the run ends in
the safety cancellation that returns to the main menu. -/
theorem c9_confirmation_gate :
    (∀ n inp args, startWipeSequence n inp = .spawned args →
      jsToLower (jsTrim (n inp.confirmation))
        = jsToLower (jsTrim (n inp.targetPath))) ∧
    (∀ n inp, jsToLower (jsTrim (n inp.confirmation))
        ≠ jsToLower (jsTrim (n inp.targetPath)) →
      (∀ args, startWipeSequence n inp ≠ .spawned args) ∧
      (inp.drives.length ≠ 0 → inp.targetPath ≠ "cancel" →
        inp.wipeMode ≠ "cancel" → inp.targetFs ≠ "cancel" →
        startWipeSequence n inp = .confirmMismatch)) := by
  constructor
  · intro n inp args h
    by_cases h1 : inp.drives.length = 0
    · simp [startWipeSequence, h1] at h
    by_cases h2 : inp.targetPath = "cancel"
    · simp [startWipeSequence, h1, h2] at h
    by_cases h3 : inp.wipeMode = "cancel"
    · simp [startWipeSequence, h1, h2, h3] at h
    by_cases h4 : inp.targetFs = "cancel"
    · simp [startWipeSequence, h1, h2, h3, h4] at h
    by_cases h5 : jsToLower (jsTrim (n inp.confirmation))
        = jsToLower (jsTrim (n inp.targetPath))
    · exact h5
    · simp [startWipeSequence, h1, h2, h3, h4, h5] at h
  · intro n inp h5
    constructor
    · intro args h
      by_cases h1 : inp.drives.length = 0
      · simp [startWipeSequence, h1] at h
      by_cases h2 : inp.targetPath = "cancel"
      · simp [startWipeSequence, h1, h2] at h
      by_cases h3 : inp.wipeMode = "cancel"
      · simp [startWipeSequence, h1, h2, h3] at h
      by_cases h4 : inp.targetFs = "cancel"
      · simp [startWipeSequence, h1, h2, h3, h4] at h
      · simp [startWipeSequence, h1, h2, h3, h4, h5] at h
    · intro h1 h2 h3 h4
      simp [startWipeSequence, h1, h2, h3, h4, h5]

/-- C9 witness: typing `/dev/sdc` to confirm a wipe of `/dev/sdb1` ends
in the safety cancellation and never spawns. -/
theorem c9_confirmation_gate_witness :
    startWipeSequence id
      ⟨[⟨"d", "/dev/sdb1", none⟩], "/dev/sdb1", "secure", "ext4", 3,
        "/dev/sdc", false, 0⟩ = .confirmMismatch :=
  (c9_confirmation_gate.2 id
    ⟨[⟨"d", "/dev/sdb1", none⟩], "/dev/sdb1", "secure", "ext4", 3,
      "/dev/sdc", false, 0⟩ (by decide)).2
    (by decide) (by decide) (by decide) (by decide)

/-- C10: on non-Windows platforms the engine subprocess is spawned only
for uid 0 — a non-root run that passes confirmation ends in the
root-privileges refusal instead of spawning — while the stages before the
root check (drive listing, menus, prompts, confirmation) behave
identically for every uid. -/
theorem c10_root_gate :
    (∀ n inp args, startWipeSequence n inp = .spawned args →
      inp.isWindows = true ∨ inp.uid = 0) ∧
    (∀ n inp, inp.isWindows = false → inp.uid ≠ 0 →
      (∀ args, startWipeSequence n inp ≠ .spawned args) ∧
      (inp.drives.length ≠ 0 → inp.targetPath ≠ "cancel" →
        inp.wipeMode ≠ "cancel" → inp.targetFs ≠ "cancel" →
        jsToLower (jsTrim (n inp.confirmation))
          = jsToLower (jsTrim (n inp.targetPath)) →
        startWipeSequence n inp = .rootRequired)) ∧
    (∀ n inp u', (startWipeSequence n inp = .noDrives ∨
        startWipeSequence n inp = .menuReturn ∨
        startWipeSequence n inp = .confirmMismatch) →
      startWipeSequence n { inp with uid := u' }
        = startWipeSequence n inp) := by
  refine ⟨?_, ?_, ?_⟩
  · intro n inp args h
    by_cases h1 : inp.drives.length = 0
    · simp [startWipeSequence, h1] at h
    by_cases h2 : inp.targetPath = "cancel"
    · simp [startWipeSequence, h1, h2] at h
    by_cases h3 : inp.wipeMode = "cancel"
    · simp [startWipeSequence, h1, h2, h3] at h
    by_cases h4 : inp.targetFs = "cancel"
    · simp [startWipeSequence, h1, h2, h3, h4] at h
    by_cases h5 : jsToLower (jsTrim (n inp.confirmation))
        = jsToLower (jsTrim (n inp.targetPath))
    · by_cases h6 : inp.isWindows = false ∧ inp.uid ≠ 0
      · simp [startWipeSequence, h1, h2, h3, h4, h5, h6] at h
      · rcases Decidable.not_and_iff_or_not.mp h6 with hw | hu
        · left
          cases hb : inp.isWindows
          · exact absurd hb hw
          · rfl
        · right
          exact Decidable.not_not.mp hu
    · simp [startWipeSequence, h1, h2, h3, h4, h5] at h
  · intro n inp hw hu
    constructor
    · intro args h
      by_cases h1 : inp.drives.length = 0
      · simp [startWipeSequence, h1] at h
      by_cases h2 : inp.targetPath = "cancel"
      · simp [startWipeSequence, h1, h2] at h
      by_cases h3 : inp.wipeMode = "cancel"
      · simp [startWipeSequence, h1, h2, h3] at h
      by_cases h4 : inp.targetFs = "cancel"
      · simp [startWipeSequence, h1, h2, h3, h4] at h
      by_cases h5 : jsToLower (jsTrim (n inp.confirmation))
          = jsToLower (jsTrim (n inp.targetPath))
      · simp [startWipeSequence, h1, h2, h3, h4, h5, hw, hu] at h
      · simp [startWipeSequence, h1, h2, h3, h4, h5] at h
    · intro h1 h2 h3 h4 h5
      simp [startWipeSequence, h1, h2, h3, h4, h5, hw, hu]
  · intro n inp u' hout
    by_cases h1 : inp.drives.length = 0
    · simp [startWipeSequence, h1]
    by_cases h2 : inp.targetPath = "cancel"
    · simp [startWipeSequence, h1, h2]
    by_cases h3 : inp.wipeMode = "cancel"
    · simp [startWipeSequence, h1, h2, h3]
    by_cases h4 : inp.targetFs = "cancel"
    · simp [startWipeSequence, h1, h2, h3, h4]
    by_cases h5 : jsToLower (jsTrim (n inp.confirmation))
        = jsToLower (jsTrim (n inp.targetPath))
    · exfalso
      rcases hout with h | h | h <;>
        · by_cases h6 : inp.isWindows = false ∧ inp.uid ≠ 0 <;>
            simp [startWipeSequence, h1, h2, h3, h4, h5, h6] at h
    · simp [startWipeSequence, h1, h2, h3, h4, h5]

/-- C10 witness: a non-root (uid 1000) Linux run whose confirmation
matches the target ends in the root-privileges refusal, not a spawn. -/
theorem c10_root_gate_witness :
    startWipeSequence id
      ⟨[⟨"d", "/dev/sdb1", none⟩], "/dev/sdb1", "secure", "ext4", 3,
        "/dev/sdb1", false, 1000⟩ = .rootRequired :=
  (c10_root_gate.2.1 id
    ⟨[⟨"d", "/dev/sdb1", none⟩], "/dev/sdb1", "secure", "ext4", 3,
      "/dev/sdb1", false, 1000⟩ rfl (by decide)).2
    (by decide) (by decide) (by decide) (by decide) (by decide)

/-- C1: a request resolving to a system-volume DriveRecord is refused by
the engine's safety guard itself with the single error event
`refused: system volume`, a non-zero exit code, and zero bytes written;
and in the UI layer a drives-payload item flagged `is_system` is rendered
as a disabled choice (`'System volume (blocked)'`) while any other item
is selectable. -/
theorem c1_system_volume_rejected :
    (∀ req records r, resolveTarget records req.targetPath = some r →
      r.isSystemVolume = true →
      (runEngine req records).events = [.error "refused: system volume"] ∧
      (runEngine req records).exitCode ≠ 0 ∧
      (runEngine req records).bytesWritten = 0) ∧
    (∀ isW d, d.is_system = true →
      (driveChoice isW d).disabled = some "System volume (blocked)") ∧
    (∀ isW d, d.is_system = false →
      (driveChoice isW d).disabled = none) := by
  refine ⟨?_, ?_, ?_⟩
  · intro req records r hres hsys
    simp [runEngine, hres, hsys]
  · intro isW d hd
    simp [driveChoice, hd]
  · intro isW d hd
    simp [driveChoice, hd]

/-- C1 witness: a concrete request against a system-volume record is
refused with the exact event, and its drives-payload item is disabled in
the menu. -/
theorem c1_system_volume_rejected_witness :
    ((runEngine ⟨"/dev/sda1", "secure", "ext4", 3, false⟩
        [⟨"/dev/sda1", "root", "ext4", 1000, true, false⟩]).bytesWritten
      = 0) ∧
    (driveChoice false
        ⟨"/dev/sda1", "/", some "root", some "ext4", some 1000, true,
          false⟩).disabled = some "System volume (blocked)" :=
  ⟨(c1_system_volume_rejected.1 ⟨"/dev/sda1", "secure", "ext4", 3, false⟩
      [⟨"/dev/sda1", "root", "ext4", 1000, true, false⟩]
      ⟨"/dev/sda1", "root", "ext4", 1000, true, false⟩ (by decide)
      rfl).2.2,
    c1_system_volume_rejected.2.1 false
      ⟨"/dev/sda1", "/", some "root", some "ext4", some 1000, true, false⟩
      rfl⟩

/-- C3: each output chunk from the engine's stdout or stderr is split into
lines and each line is handled independently in order (a fold, so a bad
line never aborts the rest): a parsed `progress` record replaces the
current phase, any other parsed record is appended to the log with its
type, and a line that fails to parse as JSON is appended to the log as
`raw` text. -/
theorem c3_line_protocol :
    (∀ parse st data, processOutput parse st data
      = (data.trim.splitOn "\n").foldl (processLine parse) st) ∧
    (∀ parse st line rest, (line :: rest).foldl (processLine parse) st
      = rest.foldl (processLine parse) (processLine parse st line)) ∧
    (∀ parse st line j, parse line = some j → j.ty = "progress" →
      processLine parse st line = { st with currentPhase := j.phase }) ∧
    (∀ parse st line j, parse line = some j → j.ty ≠ "progress" →
      processLine parse st line
        = { st with logMessages := st.logMessages ++ [⟨j.message, j.ty⟩] })
      ∧
    (∀ parse st line, parse line = none →
      processLine parse st line
        = { st with logMessages := st.logMessages ++ [⟨line, "raw"⟩] }) := by
  refine ⟨fun _ _ _ => rfl, fun _ _ _ _ => rfl, ?_, ?_, ?_⟩
  · intro parse st line j hp hty
    simp [processLine, hp, hty]
  · intro parse st line j hp hty
    simp [processLine, hp, hty]
  · intro parse st line hp
    simp [processLine, hp]

/-- C3 witness: under a concrete parse, a progress line updates the phase,
a status line appends to the log, and a non-JSON line appends raw text. -/
theorem c3_line_protocol_witness :
    (processLine (fun _ => some ⟨"progress", "Pass 2/3", ""⟩)
        ⟨"Initializing...", []⟩ "x"
      = ⟨"Pass 2/3", []⟩) ∧
    (processLine (fun _ => some ⟨"status", "", "format began"⟩)
        ⟨"p", []⟩ "x"
      = ⟨"p", [⟨"format began", "status"⟩]⟩) ∧
    (processLine (fun _ => none) ⟨"p", []⟩ "mkfs: warning"
      = ⟨"p", [⟨"mkfs: warning", "raw"⟩]⟩) :=
  ⟨c3_line_protocol.2.2.1 (fun _ => some ⟨"progress", "Pass 2/3", ""⟩)
      ⟨"Initializing...", []⟩ "x" ⟨"progress", "Pass 2/3", ""⟩ rfl rfl,
    c3_line_protocol.2.2.2.1 (fun _ => some ⟨"status", "", "format began"⟩)
      ⟨"p", []⟩ "x" ⟨"status", "", "format began"⟩ rfl (by decide),
    c3_line_protocol.2.2.2.2 (fun _ => none) ⟨"p", []⟩ "mkfs: warning"
      rfl⟩

/-- C4: the wrapper's Ctrl+C handler only ever forwards `SIGTERM` to the
engine (never a force-kill signal), and only on the Ctrl+C character with
a live engine handle; and in the spec-modelled engine loop the
cancellation flag is observed only at a chunk boundary — a step either
writes nothing, writes exactly one full chunk, or completes the extent,
and once cancellation is requested no further byte is written and the
session finishes. -/
theorem c4_cooperative_cancellation :
    (∀ key hp, ctrlCSignal key hp ≠ some "SIGKILL") ∧
    (∀ key hp, ctrlCSignal key hp = none ∨
      ctrlCSignal key hp = some "SIGTERM") ∧
    (∀ key hp sig, ctrlCSignal key hp = some sig →
      sig = "SIGTERM" ∧ key = "\u0003" ∧ hp = true) ∧
    (∀ cs total s, s.cancelRequested = true → s.finished = false →
      chunkStep cs total s = { s with finished := true }) ∧
    (∀ cs total s, (chunkStep cs total s).bytesWritten = s.bytesWritten ∨
      (chunkStep cs total s).bytesWritten = s.bytesWritten + cs ∨
      (chunkStep cs total s).bytesWritten = total) ∧
    (∀ cs total s, s.cancelRequested = true →
      (chunkStep cs total s).bytesWritten = s.bytesWritten) := by
  refine ⟨?_, ?_, ?_, ?_, ?_, ?_⟩
  · intro key hp h
    by_cases hk : key = "\u0003" && hp <;> simp [ctrlCSignal, hk] at h
  · intro key hp
    by_cases hk : key = "\u0003" && hp <;> simp [ctrlCSignal, hk]
  · intro key hp sig h
    by_cases hk : (key = "\u0003" && hp) = true
    · rw [Bool.and_eq_true] at hk
      refine ⟨?_, of_decide_eq_true hk.1, hk.2⟩
      simp [ctrlCSignal, of_decide_eq_true hk.1, hk.2] at h
      exact h.symm
    · simp [ctrlCSignal, hk] at h
  · intro cs total s hc hf
    simp [chunkStep, hc, hf]
  · intro cs total s
    by_cases hf : s.finished = true
    · left
      simp [chunkStep, hf]
    · by_cases hc : s.cancelRequested = true
      · left
        simp [chunkStep, hf, hc]
      · by_cases ht : total ≤ s.bytesWritten + cs
        · right; right
          simp [chunkStep, hf, hc, ht]
        · right; left
          simp [chunkStep, hf, hc, ht]
  · intro cs total s hc
    by_cases hf : s.finished = true <;> simp [chunkStep, hf, hc]

/-- C4 witness: the Ctrl+C character with a live engine handle yields
`SIGTERM`, and a cancelled-but-unfinished chunk state finishes without a
further write. -/
theorem c4_cooperative_cancellation_witness :
    ctrlCSignal "\u0003" true ≠ some "SIGKILL" ∧
    chunkStep 1048576 10485760 ⟨2097152, true, false⟩
      = ⟨2097152, true, true⟩ :=
  ⟨c4_cooperative_cancellation.1 "\u0003" true,
    c4_cooperative_cancellation.2.2.2.1 1048576 10485760
      ⟨2097152, true, false⟩ rfl rfl⟩

/-- C5: drive enumeration always resolves — when the primary listing
subprocess fails, yields no drives-typed line, or yields an empty
inventory, the result is the platform-tool fallback listing; when the
fallback command also fails the result is the empty list; a successful
primary listing maps the drives payload (taken from its drives-typed
line) to the menu choices; the older revision likewise resolves `[]` on
command failure; and the spec-modelled listing invocation of the engine
emits exactly one `drives` event, exits 0, and writes nothing. -/
theorem c5_drive_listing_never_rejects :
    (∀ isW fb, getDrives isW none fb = fallbackDrives isW fb) ∧
    (∀ isW lines fb, findLastDrives lines = none →
      getDrives isW (some lines) fb = fallbackDrives isW fb) ∧
    (∀ isW lines fb, findLastDrives lines = some [] →
      getDrives isW (some lines) fb = fallbackDrives isW fb) ∧
    (∀ isW, fallbackDrives isW none = []) ∧
    (∀ isW lines items fb, findLastDrives lines = some items →
      items ≠ [] →
      getDrives isW (some lines) fb = items.map (driveChoice isW)) ∧
    (∀ isW, oldGetDrives isW none = []) ∧
    (∀ records, (runEngineListing records).events
        = [.drivesEv records] ∧
      (runEngineListing records).exitCode = 0 ∧
      (runEngineListing records).bytesWritten = 0) := by
  refine ⟨fun _ _ => rfl, ?_, ?_, fun _ => rfl, ?_, fun _ => rfl,
    fun _ => ⟨rfl, rfl, rfl⟩⟩
  · intro isW lines fb h
    simp [getDrives, primaryChoices, h]
  · intro isW lines fb h
    simp [getDrives, primaryChoices, h]
  · intro isW lines items fb h hne
    have hlen : 0 < items.length := List.length_pos.mpr hne
    simp [getDrives, primaryChoices, h, List.length_map, hlen]

/-- C5 witness: a primary run with no drives-typed line falls back, a
failed fallback yields the empty list, and a one-item inventory becomes
exactly that item's menu choice. -/
theorem c5_drive_listing_never_rejects_witness :
    getDrives false (some [PrimLine.other]) none
      = fallbackDrives false none ∧
    fallbackDrives false none = [] ∧
    getDrives false
        (some [PrimLine.drives
          [⟨"/dev/sdb1", "/mnt/usb", none, none, none, false, true⟩]])
        none
      = [driveChoice false
          ⟨"/dev/sdb1", "/mnt/usb", none, none, none, false, true⟩] :=
  ⟨c5_drive_listing_never_rejects.2.1 false [PrimLine.other] none rfl,
    c5_drive_listing_never_rejects.2.2.2.1 false,
    c5_drive_listing_never_rejects.2.2.2.2.1 false
      [PrimLine.drives
        [⟨"/dev/sdb1", "/mnt/usb", none, none, none, false, true⟩]]
      [⟨"/dev/sdb1", "/mnt/usb", none, none, none, false, true⟩] none rfl
      (by simp)⟩

end DataScruber
